import Mathlib

/-!
Verification of the container-image-proxy session/protocol layer.

This file shallowly embeds the Go sources of the repository:
  * `cmd/main.go` — the descriptor-passing RPC variant (request dispatch,
    `GetManifest`, `GetBlob`, `FinishPipe`, the session loop `run`);
  * the HTTP-over-socket variant (`implManifest`, `implBlob`, `ServeHTTP`,
    its session loop `run`).

External collaborators (the containers/image backend, the go-digest hash
implementations, the operating-system pipe allocator) are modelled as
parameters: the hash as a fold structure, backend calls as `Except`-valued
fields of an environment record, and fd allocation as a function together
with the POSIX freshness property (a newly allocated descriptor is not
currently open).
-/

set_option maxHeartbeats 1000000

namespace CIProxy

/-- A byte of a stream. The Go code moves `[]byte` buffers; byte values are
abstract here, only their identity matters for hashing. -/
abbrev Byte := Nat

/-- A running hash, as used by `digest.Verifier` in go-digest: an initial
state, a per-byte update (the code feeds whole chunks, which is the fold of
the per-byte update), and a finalization to a digest value of type `D`.
`crypto/sha256` etc. are external; the model is parametric in the algorithm. -/
structure HashAlg (S D : Type) where
  init : S
  upd : S → Byte → S
  finalize : S → D

/-- The digest of a byte sequence under a hash algorithm. -/
def HashAlg.digest (A : HashAlg S D) (bs : List Byte) : D :=
  A.finalize (bs.foldl A.upd A.init)

/-- One step of `io.Copy(w, io.TeeReader(blobr, verifier))`: every chunk read
from the source is fed to the verifier state and forwarded unmodified
downstream. Returns the final verifier state and the bytes written downstream. -/
def teeCopy (A : HashAlg S D) : List (List Byte) → S → S × List Byte
  | [], st => (st, [])
  | c :: cs, st =>
    ((teeCopy A cs (c.foldl A.upd st)).1, c ++ (teeCopy A cs (c.foldl A.upd st)).2)

theorem teeCopy_spec (A : HashAlg S D) (chunks : List (List Byte)) :
    ∀ st : S, teeCopy A chunks st = (chunks.flatten.foldl A.upd st, chunks.flatten) := by
  induction chunks with
  | nil => intro st; simp [teeCopy]
  | cons c cs ih => intro st; simp [teeCopy, ih, List.foldl_append]

/-- Terminal failure of a transfer copy task (cmd/main.go, the goroutine in
`GetBlob`): either the `io.Copy` itself failed, or the copy completed but the
verifier rejected, producing `corrupted blob, expecting <digest>`. -/
inductive TransferErr (D : Type) where
  | ioError (msg : String)
  | corruptedBlob (expected : D)
  deriving DecidableEq

/-- The blob copy goroutine of cmd/main.go lines 188-201: tee the backend
stream through the verifier into the pipe. `copyErr = some (k, e)` models
`io.Copy` failing with error `e` after `k` chunks were transferred (in which
case the verifier is never consulted); `copyErr = none` models the copy
running to completion, after which `verifier.Verified()` decides the outcome.
Returns the bytes written downstream and the recorded error `f.err`. -/
def blobCopyTask [DecidableEq D] (A : HashAlg S D) (d : D) (chunks : List (List Byte))
    (copyErr : Option (Nat × String)) : List Byte × Option (TransferErr D) :=
  match copyErr with
  | some ke => ((chunks.take ke.1).flatten, some (.ioError ke.2))
  | none =>
    if A.finalize (teeCopy A chunks A.init).1 = d then ((teeCopy A chunks A.init).2, none)
    else ((teeCopy A chunks A.init).2, some (.corruptedBlob d))

/-- Claim C1: for every blob transfer whose copy runs to completion
(`copyErr = none`), the recorded outcome is success exactly when the digest of
the bytes forwarded downstream equals the requested digest; and when the
running hash does not match after the full stream is consumed, the recorded
outcome is the corrupted-blob error naming the expected digest, never a
silent success. -/
theorem blob_transfer_verifies [DecidableEq D] (A : HashAlg S D) (d : D)
    (chunks : List (List Byte)) :
    ((blobCopyTask A d chunks none).2 = none ↔
      A.digest (blobCopyTask A d chunks none).1 = d)
    ∧ (A.digest (blobCopyTask A d chunks none).1 ≠ d →
      (blobCopyTask A d chunks none).2 = some (.corruptedBlob d)) := by
  have h := teeCopy_spec A chunks A.init
  simp only [blobCopyTask, h, HashAlg.digest]
  by_cases hd : A.finalize (chunks.flatten.foldl A.upd A.init) = d
  · simp [hd]
  · simp [hd]

/-- A small concrete hash algorithm used to instantiate parametric theorems
on executable inputs. -/
def algN : HashAlg Nat Nat :=
  { init := 0, upd := fun s b => s * 2 + b + 1, finalize := fun s => s }

/-- Witness for C1: a concrete completed transfer with matching digest
succeeds, and one with a mismatched digest records the corrupted-blob error. -/
theorem blob_transfer_verifies_witness :
    (blobCopyTask algN 18 [[1, 2], [3]] none).2 = none
    ∧ (blobCopyTask algN 99 [[1, 2], [3]] none).2 = some (.corruptedBlob 99) := by
  constructor
  · exact (blob_transfer_verifies algN 18 [[1, 2], [3]]).1.mpr (by decide)
  · exact (blob_transfer_verifies algN 99 [[1, 2], [3]]).2 (by decide)

/-- A decoded JSON argument, as the Go handlers see entries of
`request.Args []interface{}`: JSON strings, JSON numbers (which
`encoding/json` decodes into `float64`; the handles appearing in the
protocol are small non-negative integers, modelled as `Nat`), and anything
else (carrying the Go type name that `%T` would print). -/
inductive JValue where
  | str (s : String)
  | num (n : Nat)
  | other (goType : String)
  deriving DecidableEq

/-- The Go dynamic type name of a JSON argument, as printed by the `%T`
format verb in `FinishPipe`. -/
def jvalueGoType : JValue → String
  | .str _ => "string"
  | .num _ => "float64"
  | .other t => t

/-- A decoded RPC request envelope (cmd/main.go `request`). -/
structure Request where
  method : String
  args : List JValue
  deriving DecidableEq

/-- The `value` field a handler places into its `replyBuf`: `nil` for the
zero buffer, the digest string for `GetManifest`, the blob size for
`GetBlob`. -/
inductive RpcValue (D : Type) where
  | unit
  | digest (d : D)
  | size (n : Int)
  deriving DecidableEq

/-- The internal `replyBuf` of cmd/main.go: a value, the pipe id (the fd
number of the write end of the conduit), and the optional read-end
descriptor passed out of band (`nil` for error replies). -/
structure ReplyBufM (D : Type) where
  value : RpcValue D
  pipeid : Nat
  fd : Option Nat
  deriving DecidableEq

/-- The zero `replyBuf` used on every handler error path. -/
def zeroBuf : ReplyBufM D := ⟨.unit, 0, none⟩

/-- A serialized reply as written by `replyBuf.send`: the JSON envelope
fields plus whether an out-of-band descriptor accompanied it. -/
structure SentReply (D : Type) where
  success : Bool
  value : RpcValue D
  pipeid : Nat
  hasFd : Bool
  error : String
  deriving DecidableEq

/-- `replyBuf.send(conn, err)`: success is `err == nil`, the error text is
attached only on failure, and a descriptor rides along exactly when the
buffer holds one. -/
def mkReply (err : Option String) (buf : ReplyBufM D) : SentReply D :=
  ⟨err.isNone, buf.value, buf.pipeid, buf.fd.isSome, err.getD ""⟩

/-- One registered `activePipe` of cmd/main.go: the fd number of its write
end (`f.w`), the bytes its copy goroutine writes into the conduit, and the
terminal outcome `f.err` that the goroutine records before `wg.Done` (the
value `FinishPipe` observes after `f.wg.Wait()` returns). -/
structure ActivePipe (D : Type) where
  wfd : Nat
  sent : List Byte
  err : Option (TransferErr D)
  deriving DecidableEq

/-- The registry-relevant state of the proxy process: the set of file
descriptors currently open in the process, and the `activePipes` map,
keyed by the write-end fd number. -/
structure PState (D : Type) where
  openFds : Finset Nat
  activePipes : List (Nat × ActivePipe D)
  deriving DecidableEq

/-- Lookup in the `activePipes` map (`h.activePipes[pipeid]`). -/
def lookupPipe : List (Nat × ActivePipe D) → Nat → Option (ActivePipe D)
  | [], _ => none
  | p :: ps, k => if p.1 = k then some p.2 else lookupPipe ps k

/-- `delete(h.activePipes, pipeid)`. -/
def mapRemove (l : List (Nat × ActivePipe D)) (k : Nat) : List (Nat × ActivePipe D) :=
  l.filter (fun p => p.1 ≠ k)

/-- Go map assignment `h.activePipes[k] = &f`: any previous binding of the
key is replaced. -/
def mapInsert (l : List (Nat × ActivePipe D)) (k : Nat) (v : ActivePipe D) :
    List (Nat × ActivePipe D) :=
  (k, v) :: mapRemove l k

/-- The manifest-fetching side of the containers/image backend, an external
collaborator of the proxy: `(*h.img).Manifest(ctx)`, `manifest.Digest`, and
`manifest.OCI1FromManifest` followed by `Serialize` (the two conversion
steps are not separated by any intervening computation in the code, so they
are modelled as one fallible function). -/
structure ImageBackend (D : Type) where
  manifestRaw : Except String (List Byte)
  manifestDigest : List Byte → Except String D
  ociFromManifestSerialize : List Byte → Except String (List Byte)

/-- The blob-fetching side of the backend: `digest.Parse` and
`imgsrc.GetBlob`, the latter returning the stream (as the chunk sequence
successive reads will yield) and the declared size, `-1` when unknown. -/
structure BlobBackend (D : Type) where
  parseDigest : String → Except String D
  getBlob : D → Except String (List (List Byte) × Int)

/-- Everything external the handlers consult: the lazily-opened image
(`ensureImage` outcome), the two backend surfaces, the hash algorithm
behind `digest.Verifier`, the rendering of digests to strings
(`digest.String()`), the fd allocator behind `os.Pipe` (POSIX returns a
descriptor that is not currently open), the outcome of draining the HTTP
request body, and the chunk-indexed outcomes of `io.Copy` into the
manifest conduit and the blob response. -/
structure Env (S D : Type) where
  ensureErr : Option String
  backend : ImageBackend D
  blob : BlobBackend D
  alg : HashAlg S D
  dstr : D → String
  alloc : Finset Nat → Nat
  drainErr : Option String
  manifestCopyErr : Option (Nat × String)
  blobCopyErr : Option (Nat × String)

/-- The read-end fd `os.Pipe` hands out in state `s` (allocated first). -/
def rfdOf (E : Env S D) (s : PState D) : Nat := E.alloc s.openFds

/-- The write-end fd `os.Pipe` hands out in state `s` (allocated second,
with the read end already open). -/
def wfdOf (E : Env S D) (s : PState D) : Nat := E.alloc (insert (rfdOf E s) s.openFds)

/-- The state after a handler opens a pipe and registers a transfer under
the write-end fd (cmd/main.go lines 122-129 and 182-185). -/
def pipeRegister (E : Env S D) (s : PState D) (sent : List Byte)
    (e : Option (TransferErr D)) : PState D :=
  ⟨insert (wfdOf E s) (insert (rfdOf E s) s.openFds),
   mapInsert s.activePipes (wfdOf E s) ⟨wfdOf E s, sent, e⟩⟩

/-- The state after `GetBlob` opens its pipe but fails before registering:
both pipe fds remain open and unregistered (the code returns without
closing them). -/
def pipeLeak (E : Env S D) (s : PState D) : PState D :=
  ⟨insert (wfdOf E s) (insert (rfdOf E s) s.openFds), s.activePipes⟩

/-- `defer buf.fd.Close()` in `replyBuf.send`: the local copy of the
read-end descriptor is closed after the reply is written. -/
def closeFd (fd : Option Nat) (s : PState D) : PState D :=
  match fd with
  | none => s
  | some r => ⟨s.openFds.erase r, s.activePipes⟩

/-- `proxyHandler.GetManifest` (cmd/main.go lines 90-146): reject a nonzero
argument count, ensure the image, fetch the raw manifest, digest the RAW
bytes, convert to OCI and serialize, open a pipe, register the transfer
under the write-end fd with a goroutine copying the OCI serialization into
the conduit, and reply with the digest string plus the read end out of
band. Returns the handler error, the `replyBuf`, and the updated state. -/
def rpcGetManifest (E : Env S D) (args : List JValue) (s : PState D) :
    Option String × ReplyBufM D × PState D :=
  if args.length ≠ 0 then (some "invalid request, expecting zero arguments", zeroBuf, s)
  else
    match E.ensureErr with
    | some e => (some e, zeroBuf, s)
    | none =>
      match E.backend.manifestRaw with
      | .error e => (some e, zeroBuf, s)
      | .ok raw =>
        match E.backend.manifestDigest raw with
        | .error e => (some e, zeroBuf, s)
        | .ok dg =>
          match E.backend.ociFromManifestSerialize raw with
          | .error e => (some e, zeroBuf, s)
          | .ok oci =>
            (none,
             ⟨.digest dg, wfdOf E s, some (rfdOf E s)⟩,
             pipeRegister E s
               (match E.manifestCopyErr with
                | some ke => oci.take ke.1
                | none => oci)
               (E.manifestCopyErr.map (fun ke => .ioError ke.2)))

/-- `proxyHandler.GetBlob` (cmd/main.go lines 148-207): reject a wrong
argument count or a non-string argument, ensure the image, open a pipe
(before parsing the digest, so failure of the two following backend calls
leaks both pipe fds without registering anything), parse the digest, fetch
the blob, register the transfer whose goroutine tees the stream through the
verifier, and reply with the declared size plus the read end out of band. -/
def rpcGetBlob [DecidableEq D] (E : Env S D) (args : List JValue) (s : PState D) :
    Option String × ReplyBufM D × PState D :=
  match args with
  | [a] =>
    match a with
    | .str digestStr =>
      (match E.ensureErr with
       | some e => (some e, zeroBuf, s)
       | none =>
         match E.blob.parseDigest digestStr with
         | .error e => (some e, zeroBuf, pipeLeak E s)
         | .ok d =>
           match E.blob.getBlob d with
           | .error e => (some e, zeroBuf, pipeLeak E s)
           | .ok cs =>
             (none,
              ⟨.size cs.2, wfdOf E s, some (rfdOf E s)⟩,
              pipeRegister E s (blobCopyTask E.alg d cs.1 E.blobCopyErr).1
                (blobCopyTask E.alg d cs.1 E.blobCopyErr).2))
    | _ => (some "expecting string blobid", zeroBuf, s)
  | _ => (some "invalid request, expecting one blobid", zeroBuf, s)

/-- The error a `FinishPipe` call can report (cmd/main.go lines 209-231):
a non-number argument, an unknown pipe id, or the transfer error recorded
by the copy task. -/
inductive FinishErr (D : Type) where
  | badArgType (goType : String)
  | noSuchTransfer (pipeid : Nat)
  | transferErr (e : TransferErr D)
  deriving DecidableEq

/-- How a `FinishPipe` call ends: a Go runtime panic (the handler indexes
`args[0]` without checking the length, so an empty argument list crashes
the process), or a returned reply outcome (`none` for success). -/
inductive FinishOutcome (D : Type) where
  | panicked
  | reply (err : Option (FinishErr D))
  deriving DecidableEq

/-- `proxyHandler.FinishPipe` (cmd/main.go lines 209-231): read `args[0]`
(panicking when absent), require a number, convert it to `uint32`, look the
transfer up (failing with the no-active-pipe error when absent), wait for
the copy task, close the write end, remove the registry entry, and return
the recorded outcome. The entry field `err` is the value `f.err` holds
once `f.wg.Wait()` has returned, so the blocking rendezvous is modelled by
reading the terminal outcome. -/
def finishPipe (args : List JValue) (s : PState D) : FinishOutcome D × PState D :=
  match args with
  | [] => (.panicked, s)
  | a :: _ =>
    match a with
    | .num n =>
      match lookupPipe s.activePipes (n % 2 ^ 32) with
      | none => (.reply (some (.noSuchTransfer (n % 2 ^ 32))), s)
      | some f =>
        (.reply (f.err.map .transferErr),
         ⟨s.openFds.erase f.wfd, mapRemove s.activePipes (n % 2 ^ 32)⟩)
    | a => (.reply (some (.badArgType (jvalueGoType a))), s)

/-- Rendering of a `FinishPipe` error into the reply error string, matching
the `fmt.Errorf` calls in the handler and the `Error()` texts of the
recorded transfer errors. -/
def finishErrString (dstr : D → String) : FinishErr D → String
  | .badArgType t => "finishpipe: expecting blobid, not " ++ t
  | .noSuchTransfer id => "finishpipe: no active pipe " ++ toString id
  | .transferErr (.ioError m) => m
  | .transferErr (.corruptedBlob d) => "corrupted blob, expecting " ++ dstr d

/-- The request a loop iteration dispatches on: the decoded envelope, or
the zero `request` value when `json.Unmarshal` failed (the error return of
`Unmarshal` leaves the struct untouched on malformed input). -/
def reqOf (inp : Except String Request) : Request :=
  match inp with
  | .ok r => r
  | .error _ => ⟨"", []⟩

/-- The replies sent before the method switch runs: on a JSON decode error
the loop sends an invalid-request error reply and then FALLS THROUGH to the
switch (there is no `continue` after the `Unmarshal` error branch in
cmd/main.go lines 317-320). -/
def preReplies (inp : Except String Request) : List (SentReply D) :=
  match inp with
  | .ok _ => []
  | .error e => [⟨false, .unit, 0, false, "invalid request: " ++ e⟩]

/-- What the session loop does after one message. -/
inductive LoopCtl where
  | cont
  | stop
  | crashed
  deriving DecidableEq

/-- The body of one iteration of the RPC session loop (cmd/main.go lines
315-337): decode, send the invalid-request reply on decode failure, then
switch on the method. The switch has cases for `GetManifest`, `FinishPipe`
and `Shutdown` only — `GetBlob` has no case and falls to the default
unknown-method reply. `Shutdown` breaks the loop without replying. A panic
inside `FinishPipe` crashes the process before any reply is written. -/
def handleMessage (E : Env S D) [DecidableEq D] (inp : Except String Request)
    (s : PState D) : List (SentReply D) × LoopCtl × PState D :=
  if (reqOf inp).method = "GetManifest" then
    (preReplies inp ++ [mkReply (rpcGetManifest E (reqOf inp).args s).1
        (rpcGetManifest E (reqOf inp).args s).2.1],
     .cont,
     closeFd (rpcGetManifest E (reqOf inp).args s).2.1.fd
       (rpcGetManifest E (reqOf inp).args s).2.2)
  else if (reqOf inp).method = "FinishPipe" then
    match finishPipe (reqOf inp).args s with
    | (.panicked, s2) => (preReplies inp, .crashed, s2)
    | (.reply e, s2) =>
      (preReplies inp ++ [mkReply (e.map (finishErrString E.dstr)) zeroBuf], .cont, s2)
  else if (reqOf inp).method = "Shutdown" then
    (preReplies inp, .stop, s)
  else
    (preReplies inp ++
       [⟨false, .unit, 0, false, "unknown method: " ++ (reqOf inp).method⟩],
     .cont, s)

/-- One inbound event on the RPC socket: a datagram (with the result of
decoding it) or a read error (EOF or not). -/
inductive EventB where
  | msg (inp : Except String Request)
  | readErr (eof : Bool) (m : String)

/-- How a run of the RPC session loop ends. -/
inductive SessEndB where
  | eos
  | shutdown
  | readError (m : String)
  | crashed
  | running
  deriving DecidableEq

/-- The RPC session loop of cmd/main.go `run` (lines 306-338), driven by a
finite trace of inbound events: EOF breaks the loop, any other read error
returns it as the fatal session error, and each datagram is handled by
`handleMessage`; `running` means the trace was exhausted with the loop
still awaiting the next request. Collects every reply sent. -/
def runB (E : Env S D) [DecidableEq D] : List EventB → PState D →
    List (SentReply D) × SessEndB × PState D
  | [], s => ([], .running, s)
  | .readErr true _ :: _, s => ([], .eos, s)
  | .readErr false m :: _, s => ([], .readError ("reading socket: " ++ m), s)
  | .msg inp :: rest, s =>
    match handleMessage E inp s with
    | (rs, .cont, s2) =>
      ((rs ++ (runB E rest s2).1, (runB E rest s2).2.1, (runB E rest s2).2.2))
    | (rs, .stop, s2) => (rs, .shutdown, s2)
    | (rs, .crashed, s2) => (rs, .crashed, s2)

/-- One call the handlers make on the `http.ResponseWriter`: adding or
setting a header, writing the status line, or writing body bytes (raw
bytes from a stream, or the bytes of an error string). -/
inductive WEvent where
  | setHeader (k v : String)
  | writeHeader (status : Nat)
  | write (bs : List Byte)
  | writeStr (s : String)
  deriving DecidableEq

/-- The status of a response is the one carried by the first `WriteHeader`
call (the socket response writer emits the status line on the first call). -/
def statusOf : List WEvent → Option Nat
  | [] => none
  | .writeHeader c :: _ => some c
  | _ :: evs => statusOf evs

/-- Whether a writer call contributes body bytes. -/
def isBodyWrite : WEvent → Bool
  | .write _ => true
  | .writeStr _ => true
  | _ => false

/-- `implManifest` of the HTTP variant (lines 279-311 of the socket-serving
main): drain the request body, fetch the raw manifest, digest the RAW
bytes and place them in the `Manifest-Digest` header, then convert to OCI,
serialize, and send the converted bytes as the 200 body. -/
def implManifest (E : Env S D) : List WEvent × Option String :=
  match E.drainErr with
  | some e => ([], some e)
  | none =>
    match E.backend.manifestRaw with
    | .error e => ([], some e)
    | .ok raw =>
      match E.backend.manifestDigest raw with
      | .error e => ([], some e)
      | .ok dg =>
        match E.backend.ociFromManifestSerialize raw with
        | .error e => ([WEvent.setHeader "Manifest-Digest" (E.dstr dg)], some e)
        | .ok oci =>
          match E.manifestCopyErr with
          | some ke =>
            ([.setHeader "Manifest-Digest" (E.dstr dg),
              .setHeader "Content-Length" (toString oci.length),
              .writeHeader 200, .write (oci.take ke.1)], some ke.2)
          | none =>
            ([.setHeader "Manifest-Digest" (E.dstr dg),
              .setHeader "Content-Length" (toString oci.length),
              .writeHeader 200, .write oci], none)

/-- The error text of a transfer failure in the HTTP blob path (the
corrupted-blob message is capitalized there). -/
def httpTransferErrString (dstr : D → String) : TransferErr D → String
  | .ioError m => m
  | .corruptedBlob d => "Corrupted blob, expecting " ++ dstr d

/-- `implBlob` of the HTTP variant (lines 313-341): drain the body, parse
the digest, fetch the blob, set `Content-Length` to the declared size
UNCONDITIONALLY (also when the backend reports the unknown sentinel `-1`)
and `Content-Type`, write the 200 status, then tee the stream through the
verifier into the body, failing after the fact on a verification mismatch. -/
def implBlob [DecidableEq D] (E : Env S D) (digestStr : String) :
    List WEvent × Option String :=
  match E.drainErr with
  | some e => ([], some e)
  | none =>
    match E.blob.parseDigest digestStr with
    | .error e => ([], some e)
    | .ok d =>
      match E.blob.getBlob d with
      | .error e => ([], some e)
      | .ok cs =>
        ([.setHeader "Content-Length" (toString cs.2),
          .setHeader "Content-Type" "application/octet-stream",
          .writeHeader 200, .write (blobCopyTask E.alg d cs.1 E.blobCopyErr).1],
         (blobCopyTask E.alg d cs.1 E.blobCopyErr).2.map (httpTransferErrString E.dstr))

/-- An HTTP request as `ServeHTTP` inspects it: method and URL path. -/
structure HttpRequest where
  method : String
  path : String
  deriving DecidableEq

/-- Go `strings.HasPrefix` (and the prefix test of `r.URL.Path`), defined
on the character lists so that it evaluates by kernel reduction. -/
def strStarts (s pre : String) : Bool := pre.toList.isPrefixOf s.toList

/-- Go `filepath.Base`: empty path gives a dot, otherwise trailing slashes
are stripped and the last path element is returned, a slash when nothing
remains. -/
def filepathBase (p : String) : String :=
  if p = "" then "." else
    let cs := (p.toList.reverse.dropWhile (fun c => c = '/')).reverse
    if cs = [] then "/" else
      String.mk (cs.reverse.takeWhile (fun c => c ≠ '/')).reverse

/-- How `ServeHTTP` finishes a handler call: on a returned error it writes
status 500 and the error text as the body (lines 375-382). -/
def respond500 (r : List WEvent × Option String) : List WEvent :=
  match r.2 with
  | none => r.1
  | some e => r.1 ++ [.writeHeader 500, .writeStr e]

/-- `ServeHTTP` of the HTTP variant (lines 347-383): any non-GET method is
answered 405 with an empty body; an empty or non-absolute path 400; the
`/manifest` path and the `/blobs/` prefix dispatch to the handlers; every
other path 400 with an empty body. There is no `/quit` route of any kind. -/
def serveHTTP (E : Env S D) [DecidableEq D] (req : HttpRequest) : List WEvent :=
  if req.method ≠ "GET" then
    [.setHeader "Content-Length" "0", .writeHeader 405]
  else if req.path = "" ∨ ¬ strStarts req.path "/" then
    [.setHeader "Content-Length" "0", .writeHeader 400]
  else if req.path = "/manifest" then respond500 (implManifest E)
  else if strStarts req.path "/blobs/" then
    respond500 (implBlob E (filepathBase req.path))
  else
    [.setHeader "Content-Length" "0", .writeHeader 400]

/-- One inbound event of the HTTP session loop: a parsed request together
with the outcome of flushing its response, or a `ReadRequest` error. -/
inductive EventA where
  | msg (req : HttpRequest) (flushErr : Option String)
  | readErr (eof : Bool) (m : String)

/-- How a run of the HTTP session loop ends. -/
inductive SessEndA where
  | eos
  | ioError (m : String)
  | running
  deriving DecidableEq

/-- The HTTP session loop (lines 485-502 of the socket-serving main): an
EOF from `ReadRequest` ends the session cleanly, any other read error or a
flush error ends it with that error, and otherwise every request is served
and the loop continues; `running` means the trace was exhausted with the
loop still awaiting a request. Collects the writer calls of each response. -/
def runA (E : Env S D) [DecidableEq D] : List EventA → List (List WEvent) × SessEndA
  | [] => ([], .running)
  | .readErr true _ :: _ => ([], .eos)
  | .readErr false m :: _ => ([], .ioError m)
  | .msg req fe :: rest =>
    match fe with
    | some m => ([serveHTTP E req], .ioError m)
    | none => (serveHTTP E req :: (runA E rest).1, (runA E rest).2)

/-- Claim C2: for every GetManifest RPC and GET /manifest request that
succeeds, the digest reported to the caller (the reply value, the
Manifest-Digest header) is the digest computed over the original raw
manifest bytes as fetched from the backend, while the body delivered (the
bytes copied into the conduit, the 200 response body) is the OCI-converted
serialization; whenever the digest of the converted bytes differs, the
reported digest is not it. -/
theorem manifest_digest_over_original (E : Env S D) (s : PState D)
    (raw : List Byte) (dg : D) (oci : List Byte)
    (hens : E.ensureErr = none)
    (hraw : E.backend.manifestRaw = .ok raw)
    (hdg : E.backend.manifestDigest raw = .ok dg)
    (hoci : E.backend.ociFromManifestSerialize raw = .ok oci)
    (hcopy : E.manifestCopyErr = none)
    (hdrain : E.drainErr = none) :
    rpcGetManifest E [] s =
      (none, ⟨.digest dg, wfdOf E s, some (rfdOf E s)⟩, pipeRegister E s oci none)
    ∧ implManifest E =
      ([.setHeader "Manifest-Digest" (E.dstr dg),
        .setHeader "Content-Length" (toString oci.length),
        .writeHeader 200, .write oci], none)
    ∧ ∀ d2 : D, E.backend.manifestDigest oci = .ok d2 → d2 ≠ dg →
        (rpcGetManifest E [] s).2.1.value ≠ .digest d2 := by
  refine ⟨?_, ?_, ?_⟩
  · simp [rpcGetManifest, hens, hraw, hdg, hoci, hcopy]
  · simp [implManifest, hdrain, hraw, hdg, hoci, hcopy]
  · intro d2 _ hne
    have h1 : (rpcGetManifest E [] s).2.1.value = .digest dg := by
      simp [rpcGetManifest, hens, hraw, hdg, hoci, hcopy]
    rw [h1]
    intro hh
    exact hne (RpcValue.digest.inj hh).symm

/-- The fd allocator used to instantiate parametric theorems: one more
than the largest open descriptor. -/
def supAlloc (t : Finset Nat) : Nat := t.sup id + 1

theorem supAlloc_fresh (t : Finset Nat) : supAlloc t ∉ t := by
  intro h
  have h2 := Finset.le_sup (f := id) h
  simp only [id_eq, supAlloc] at h2
  omega

/-- A concrete manifest backend for instantiating theorems. -/
def backendN : ImageBackend Nat :=
  { manifestRaw := .ok [1, 2, 3]
  , manifestDigest := fun bs => .ok (algN.digest bs)
  , ociFromManifestSerialize := fun bs => .ok (0 :: bs) }

/-- A concrete blob backend: one digest resolving to a stream of known
content, another whose declared size is the unknown sentinel -1. -/
def blobN : BlobBackend Nat :=
  { parseDigest := fun s =>
      if s = "sha256:good" then .ok (algN.digest [7, 8, 9])
      else if s = "sha256:neg" then .ok (algN.digest [5])
      else .error "invalid digest"
  , getBlob := fun d =>
      if d = algN.digest [5] then .ok ([[5]], -1)
      else .ok ([[7, 8], [9]], 3) }

/-- A concrete environment for instantiating the parametric theorems on
executable inputs. -/
def envN : Env Nat Nat :=
  { ensureErr := none
  , backend := backendN
  , blob := blobN
  , alg := algN
  , dstr := fun d => "sha256:" ++ toString d
  , alloc := supAlloc
  , drainErr := none
  , manifestCopyErr := none
  , blobCopyErr := none }

/-- The state of a fresh session: no pipes registered. -/
def initPState : PState D := ⟨∅, []⟩

/-- Witness for C2: on the concrete backend the reported digest is the one
of the raw bytes, the delivered body is the conversion, and the digest of
the converted bytes (which differs) is not what is reported. -/
theorem manifest_digest_over_original_witness :
    rpcGetManifest envN [] initPState =
      (none, ⟨.digest 18, wfdOf envN initPState, some (rfdOf envN initPState)⟩,
       pipeRegister envN initPState [0, 1, 2, 3] none)
    ∧ implManifest envN =
      ([.setHeader "Manifest-Digest" (envN.dstr 18),
        .setHeader "Content-Length" (toString (4 : Nat)),
        .writeHeader 200, .write [0, 1, 2, 3]], none)
    ∧ (rpcGetManifest envN [] initPState).2.1.value ≠ .digest 26 := by
  have h := manifest_digest_over_original envN initPState [1, 2, 3] 18 [0, 1, 2, 3]
    rfl rfl rfl rfl rfl rfl
  exact ⟨h.1, h.2.1, h.2.2 26 rfl (by decide)⟩

theorem lookupPipe_mapRemove_self (l : List (Nat × ActivePipe D)) (k : Nat) :
    lookupPipe (mapRemove l k) k = none := by
  induction l with
  | nil => simp [mapRemove, lookupPipe]
  | cons p ps ih =>
    simp only [mapRemove, List.filter_cons] at ih ⊢
    by_cases hp : p.1 = k
    · simpa [hp] using ih
    · simpa [lookupPipe, hp] using ih

/-- Claim C3: when a transfer is registered under handle `h`, the first
FinishPipe call on `h` returns exactly the terminal outcome its copy task
recorded (success when `f.err = none`, the stored error otherwise — the
blocking rendezvous is modelled by the entry holding the post-wait value
of `f.err`), removes the transfer from the registry, and a second
FinishPipe call on the resulting state, with nothing new registered under
`h`, fails with the no-such-transfer error. -/
theorem finish_pipe_exactly_once (s : PState D) (h : Nat) (f : ActivePipe D)
    (hlt : h < 2 ^ 32) (hmem : lookupPipe s.activePipes h = some f) :
    finishPipe [.num h] s =
      (.reply (f.err.map .transferErr),
       ⟨s.openFds.erase f.wfd, mapRemove s.activePipes h⟩)
    ∧ finishPipe [.num h] ⟨s.openFds.erase f.wfd, mapRemove s.activePipes h⟩ =
      (.reply (some (.noSuchTransfer h)),
       ⟨s.openFds.erase f.wfd, mapRemove s.activePipes h⟩) := by
  have hlt2 : h < 4294967296 := by norm_num at hlt; exact hlt
  have hm : h % 4294967296 = h := Nat.mod_eq_of_lt hlt2
  have hl : lookupPipe (mapRemove s.activePipes h) h = none :=
    lookupPipe_mapRemove_self _ _
  constructor
  · simp [finishPipe, hm, hmem]
  · simp [finishPipe, hm, hl]

/-- A registry state holding one completed transfer that recorded an
io error, for instantiating the FinishPipe theorem. -/
def stateW : PState Nat := ⟨{5, 7}, [(7, ⟨7, [9], some (.ioError "broken pipe")⟩)]⟩

/-- Witness for C3: the first finish on handle 7 returns the recorded
error and removes the entry; the second finish reports no active pipe 7. -/
theorem finish_pipe_exactly_once_witness :
    finishPipe [.num 7] stateW =
      (.reply (some (.transferErr (.ioError "broken pipe"))),
       ⟨stateW.openFds.erase 7, mapRemove stateW.activePipes 7⟩)
    ∧ finishPipe [.num 7]
        ⟨stateW.openFds.erase 7, mapRemove stateW.activePipes 7⟩ =
      (.reply (some (.noSuchTransfer 7)),
       ⟨stateW.openFds.erase 7, mapRemove stateW.activePipes 7⟩) :=
  finish_pipe_exactly_once stateW 7 ⟨7, [9], some (.ioError "broken pipe")⟩
    (by decide) rfl

/-- A registry-touching operation of one session: a GetManifest request, a
GetBlob request, or a FinishPipe request, each with its argument list. -/
inductive Op where
  | manifestReq (args : List JValue)
  | blobReq (args : List JValue)
  | finishReq (args : List JValue)

/-- The state transformation of one request, reply sending included (the
read end handed out in the reply is closed by `send`). -/
def stepOp (E : Env S D) [DecidableEq D] (s : PState D) : Op → PState D
  | .manifestReq args =>
    closeFd (rpcGetManifest E args s).2.1.fd (rpcGetManifest E args s).2.2
  | .blobReq args =>
    closeFd (rpcGetBlob E args s).2.1.fd (rpcGetBlob E args s).2.2
  | .finishReq args => (finishPipe args s).2

/-- The registry invariant: keys of the `activePipes` map are pairwise
distinct (at most one transfer per handle), every registered handle is a
currently open descriptor (the write end stays open until FinishPipe), and
each entry records its own key as its write-end fd. -/
def RegInv (s : PState D) : Prop :=
  (s.activePipes.map Prod.fst).Nodup ∧
  ∀ p ∈ s.activePipes, p.1 ∈ s.openFds ∧ p.2.wfd = p.1

instance regInvDecidable [DecidableEq D] (s : PState D) : Decidable (RegInv s) :=
  inferInstanceAs (Decidable (_ ∧ _))

theorem lookupPipe_eq_none (l : List (Nat × ActivePipe D)) (k : Nat)
    (h : ∀ p ∈ l, p.1 ≠ k) : lookupPipe l k = none := by
  induction l with
  | nil => rfl
  | cons p ps ih =>
    simp only [lookupPipe]
    rw [if_neg (h p (List.mem_cons_self p ps))]
    exact ih fun q hq => h q (List.mem_cons_of_mem p hq)

theorem lookupPipe_mem (l : List (Nat × ActivePipe D)) (k : Nat) (f : ActivePipe D)
    (h : lookupPipe l k = some f) : (k, f) ∈ l := by
  induction l with
  | nil => simp [lookupPipe] at h
  | cons p ps ih =>
    simp only [lookupPipe] at h
    by_cases hp : p.1 = k
    · rw [if_pos hp] at h
      cases p with
      | mk a b =>
        cases hp
        cases Option.some.inj h
        exact List.mem_cons_self _ _
    · rw [if_neg hp] at h
      exact List.mem_cons_of_mem p (ih h)

theorem mapRemove_mem (l : List (Nat × ActivePipe D)) (k : Nat) :
    ∀ p ∈ mapRemove l k, p ∈ l ∧ p.1 ≠ k := by
  intro p hp
  have h := List.mem_filter.mp hp
  exact ⟨h.1, by simpa using h.2⟩

theorem mapRemove_keys_nodup (l : List (Nat × ActivePipe D)) (k : Nat)
    (h : (l.map Prod.fst).Nodup) : ((mapRemove l k).map Prod.fst).Nodup := by
  have hsub : List.Sublist (mapRemove l k) l := List.filter_sublist l
  exact List.Nodup.sublist (hsub.map Prod.fst) h

/-- Registering a fresh pipe and then closing the read end preserves the
registry invariant; the new key is the freshly allocated write-end fd,
absent from every open descriptor and hence from the registry. -/
theorem regInv_register (E : Env S D) (halloc : ∀ t, E.alloc t ∉ t)
    (s : PState D) (hs : RegInv s) (sent : List Byte) (e : Option (TransferErr D)) :
    RegInv (closeFd (some (rfdOf E s)) (pipeRegister E s sent e)) := by
  have hr : rfdOf E s ∉ s.openFds := halloc s.openFds
  have hw : wfdOf E s ∉ insert (rfdOf E s) s.openFds := halloc _
  have hwr : wfdOf E s ≠ rfdOf E s := fun hh => hw (hh ▸ Finset.mem_insert_self _ _)
  have hkeys : wfdOf E s ∉ (mapRemove s.activePipes (wfdOf E s)).map Prod.fst := by
    intro hmem
    rcases List.mem_map.mp hmem with ⟨p, hp, hpk⟩
    exact (mapRemove_mem _ _ p hp).2 hpk
  refine ⟨?_, ?_⟩
  · show ((((wfdOf E s, ⟨wfdOf E s, sent, e⟩) :: mapRemove s.activePipes (wfdOf E s)) :
        List (Nat × ActivePipe D)).map Prod.fst).Nodup
    exact List.nodup_cons.mpr ⟨hkeys, mapRemove_keys_nodup _ _ hs.1⟩
  · intro p hp
    have hp2 : p ∈ ((wfdOf E s, (⟨wfdOf E s, sent, e⟩ : ActivePipe D)) ::
        mapRemove s.activePipes (wfdOf E s)) := hp
    rcases List.mem_cons.mp hp2 with hp1 | hp3
    · subst hp1
      exact ⟨Finset.mem_erase.mpr ⟨hwr, Finset.mem_insert_self _ _⟩, rfl⟩
    · have h1 := (mapRemove_mem _ _ p hp3).1
      have h2 := hs.2 p h1
      have hne : p.1 ≠ rfdOf E s := fun hh => hr (hh ▸ h2.1)
      exact ⟨Finset.mem_erase.mpr
        ⟨hne, Finset.mem_insert_of_mem (Finset.mem_insert_of_mem h2.1)⟩, h2.2⟩

/-- A failed GetBlob that leaked its pipe fds preserves the invariant: the
open set only grows and the registry is unchanged. -/
theorem regInv_leak (E : Env S D) (s : PState D) (hs : RegInv s) :
    RegInv (pipeLeak E s) := by
  refine ⟨hs.1, fun p hp => ?_⟩
  have h := hs.2 p hp
  exact ⟨Finset.mem_insert_of_mem (Finset.mem_insert_of_mem h.1), h.2⟩

/-- FinishPipe preserves the invariant: it removes exactly the entry whose
write-end fd it closes. -/
theorem regInv_finish (s : PState D) (hs : RegInv s) (k : Nat) (f : ActivePipe D)
    (hl : lookupPipe s.activePipes k = some f) :
    RegInv (⟨s.openFds.erase f.wfd, mapRemove s.activePipes k⟩ : PState D) := by
  have hkf := lookupPipe_mem _ _ _ hl
  have hwfd : f.wfd = k := (hs.2 _ hkf).2
  constructor
  · exact mapRemove_keys_nodup _ _ hs.1
  · intro p hp
    have h1 := mapRemove_mem _ _ p hp
    have h2 := hs.2 p h1.1
    exact ⟨Finset.mem_erase.mpr ⟨by rw [hwfd]; exact h1.2, h2.1⟩, h2.2⟩

/-- Every GetManifest call either fails with no descriptor and an
unchanged state, or succeeds, handing out the fresh read end and
registering a transfer under the fresh write end. -/
theorem rpcGetManifest_shape (E : Env S D) (args : List JValue) (s : PState D) :
    ((rpcGetManifest E args s).2.1.fd = none ∧ (rpcGetManifest E args s).2.2 = s) ∨
    ((rpcGetManifest E args s).2.1.fd = some (rfdOf E s) ∧
      ∃ sent e, (rpcGetManifest E args s).2.2 = pipeRegister E s sent e) := by
  unfold rpcGetManifest
  split
  · exact Or.inl ⟨rfl, rfl⟩
  · split
    · exact Or.inl ⟨rfl, rfl⟩
    · split
      · exact Or.inl ⟨rfl, rfl⟩
      · split
        · exact Or.inl ⟨rfl, rfl⟩
        · split
          · exact Or.inl ⟨rfl, rfl⟩
          · exact Or.inr ⟨rfl, _, _, rfl⟩

/-- Every GetBlob call either fails before opening the pipe with the state
unchanged, or fails after opening it, leaking both fds unregistered, or
succeeds, handing out the fresh read end and registering under the fresh
write end. -/
theorem rpcGetBlob_shape [DecidableEq D] (E : Env S D) (args : List JValue)
    (s : PState D) :
    ((rpcGetBlob E args s).2.1.fd = none ∧ (rpcGetBlob E args s).2.2 = s) ∨
    ((rpcGetBlob E args s).2.1.fd = none ∧ (rpcGetBlob E args s).2.2 = pipeLeak E s) ∨
    ((rpcGetBlob E args s).2.1.fd = some (rfdOf E s) ∧
      ∃ sent e, (rpcGetBlob E args s).2.2 = pipeRegister E s sent e) := by
  unfold rpcGetBlob
  split
  · split
    · split
      · exact Or.inl ⟨rfl, rfl⟩
      · split
        · exact Or.inr (Or.inl ⟨rfl, rfl⟩)
        · split
          · exact Or.inr (Or.inl ⟨rfl, rfl⟩)
          · exact Or.inr (Or.inr ⟨rfl, _, _, rfl⟩)
    · exact Or.inl ⟨rfl, rfl⟩
  · exact Or.inl ⟨rfl, rfl⟩

/-- Every FinishPipe call either leaves the state unchanged or removes one
registered entry, closing that entry's write-end fd. -/
theorem finishPipe_shape (args : List JValue) (s : PState D) :
    (finishPipe args s).2 = s ∨
    ∃ k f, lookupPipe s.activePipes k = some f ∧
      (finishPipe args s).2 =
        (⟨s.openFds.erase f.wfd, mapRemove s.activePipes k⟩ : PState D) := by
  unfold finishPipe
  split
  · exact Or.inl rfl
  · split
    · rename_i a rest n
      cases hl : lookupPipe s.activePipes (n % 2 ^ 32) with
      | none => simp [hl]
      | some f => exact Or.inr ⟨n % 2 ^ 32, f, hl, by simp [hl]⟩
    · exact Or.inl rfl

/-- One request preserves the registry invariant. -/
theorem stepOp_preserves (E : Env S D) [DecidableEq D]
    (halloc : ∀ t, E.alloc t ∉ t) (s : PState D) (hs : RegInv s) (op : Op) :
    RegInv (stepOp E s op) := by
  cases op with
  | manifestReq args =>
    rcases rpcGetManifest_shape E args s with ⟨hfd, hst⟩ | ⟨hfd, sent, e, hst⟩
    · simpa [stepOp, hfd, hst, closeFd] using hs
    · simp only [stepOp, hfd, hst]
      exact regInv_register E halloc s hs sent e
  | blobReq args =>
    rcases rpcGetBlob_shape E args s with ⟨hfd, hst⟩ | ⟨hfd, hst⟩ | ⟨hfd, sent, e, hst⟩
    · simpa [stepOp, hfd, hst, closeFd] using hs
    · simp only [stepOp, hfd, hst, closeFd]
      exact regInv_leak E s hs
    · simp only [stepOp, hfd, hst]
      exact regInv_register E halloc s hs sent e
  | finishReq args =>
    rcases finishPipe_shape args s with hst | ⟨k, f, hl, hst⟩
    · simpa [stepOp, hst] using hs
    · simp only [stepOp, hst]
      exact regInv_finish s hs k f hl

/-- Claim C7: in every state reachable by a sequence of requests from an
invariant-satisfying start, at most one transfer is registered per handle
(the registry keys are pairwise distinct), every registered handle is a
still-open write-end fd, and the write-end fd that the next `os.Pipe`
call would hand to a registering request is not a key of the registry —
so registering a new transfer never displaces a still-live entry and a
handle value is reused only after FinishPipe removed its transfer. -/
theorem registry_handle_unique (E : Env S D) [DecidableEq D]
    (halloc : ∀ t, E.alloc t ∉ t) (s0 : PState D) (h0 : RegInv s0)
    (ops : List Op) :
    RegInv (ops.foldl (stepOp E) s0) ∧
    lookupPipe (ops.foldl (stepOp E) s0).activePipes
      (wfdOf E (ops.foldl (stepOp E) s0)) = none := by
  have hinv : ∀ (l : List Op) (s : PState D), RegInv s → RegInv (l.foldl (stepOp E) s) := by
    intro l
    induction l with
    | nil => intro s hs; simpa using hs
    | cons op rest ih =>
      intro s hs
      exact ih _ (stepOp_preserves E halloc s hs op)
  have hI := hinv ops s0 h0
  refine ⟨hI, ?_⟩
  apply lookupPipe_eq_none
  intro p hp hk
  have h1 := (hI.2 p hp).1
  have hw := halloc (insert (rfdOf E (ops.foldl (stepOp E) s0))
    (ops.foldl (stepOp E) s0).openFds)
  rw [hk] at h1
  exact hw (Finset.mem_insert_of_mem h1)

/-- Witness for C7: a concrete trace — manifest fetch, blob fetch, a
finish of the first transfer, and another manifest fetch — ends in a
state satisfying the invariant with the next write fd unregistered. -/
theorem registry_handle_unique_witness :
    RegInv (([Op.manifestReq [], Op.blobReq [JValue.str "sha256:good"],
        Op.finishReq [JValue.num 2], Op.manifestReq []]).foldl (stepOp envN) initPState) ∧
    lookupPipe (([Op.manifestReq [], Op.blobReq [JValue.str "sha256:good"],
        Op.finishReq [JValue.num 2], Op.manifestReq []]).foldl (stepOp envN)
        initPState).activePipes
      (wfdOf envN (([Op.manifestReq [], Op.blobReq [JValue.str "sha256:good"],
        Op.finishReq [JValue.num 2], Op.manifestReq []]).foldl (stepOp envN)
        initPState)) = none :=
  registry_handle_unique envN supAlloc_fresh initPState (by decide) _

/-- Claim C4 (code bug in the dispatcher): the method switch of the RPC
session loop has no GetBlob case, so an envelope with method GetBlob and
one digest argument falls to the default branch and is answered with an
unknown-method error reply carrying no descriptor — even though the
GetBlob handler is defined in the same file and, called directly, answers
with the blob size as the value and the conduit read end out of band, in
the same pattern as GetManifest. -/
theorem getblob_not_dispatched :
    handleMessage envN (.ok ⟨"GetBlob", [.str "sha256:good"]⟩) initPState =
      ([⟨false, .unit, 0, false, "unknown method: GetBlob"⟩], .cont, initPState)
    ∧ rpcGetBlob envN [.str "sha256:good"] initPState =
      (none, ⟨.size 3, wfdOf envN initPState, some (rfdOf envN initPState)⟩,
       pipeRegister envN initPState [7, 8, 9] none) := by
  constructor
  · rfl
  · rfl

/-- Claim C9 (code bug for the invalid-JSON half): a datagram that fails
to decode makes the loop send the invalid-request error reply and then
fall through to the method switch on the zero-valued request — there is no
continue — so a second unknown-method error reply follows; both replies
have success false and no descriptor and the session stays alive, but two
replies are sent where the claim requires exactly one. A well-formed
envelope with an unknown method does get exactly one error reply with no
descriptor, and the session stays alive. -/
theorem invalid_json_double_reply :
    handleMessage envN (.error "unexpected end of JSON input") initPState =
      ([⟨false, .unit, 0, false, "invalid request: unexpected end of JSON input"⟩,
        ⟨false, .unit, 0, false, "unknown method: "⟩], .cont, initPState)
    ∧ handleMessage envN (.ok ⟨"Frobnicate", []⟩) initPState =
      ([⟨false, .unit, 0, false, "unknown method: Frobnicate"⟩], .cont, initPState) := by
  constructor
  · rfl
  · rfl

/-- Claim C10 (code bug): FinishPipe reads args[0] without checking the
argument count, so a FinishPipe request with an empty args array panics
— crashing the process before any reply is written — whereas GetManifest
and GetBlob reject a wrong argument count with an invalid-request error
reply. -/
theorem finishpipe_empty_args_panics :
    finishPipe ([] : List JValue) (initPState : PState Nat) = (.panicked, initPState)
    ∧ handleMessage envN (.ok ⟨"FinishPipe", []⟩) initPState =
        ([], .crashed, initPState)
    ∧ (rpcGetManifest envN [.num 1] initPState).1 =
        some "invalid request, expecting zero arguments"
    ∧ (rpcGetBlob envN [] initPState).1 =
        some "invalid request, expecting one blobid" := by
  refine ⟨rfl, rfl, rfl, rfl⟩

/-- Claim C5 counterexample: the HTTP variant has no quit route at all — a
POST /quit request hits the non-GET branch and is answered 405 with an
empty body, not 200, and the session loop carries on, serving the next
request; it does not terminate. -/
theorem quit_post_rejected :
    serveHTTP envN ⟨"POST", "/quit"⟩ =
      [.setHeader "Content-Length" "0", .writeHeader 405]
    ∧ statusOf (serveHTTP envN ⟨"POST", "/quit"⟩) ≠ some 200
    ∧ (runA envN [.msg ⟨"POST", "/quit"⟩ none, .msg ⟨"GET", "/manifest"⟩ none]).2 =
        .running
    ∧ (runA envN [.msg ⟨"POST", "/quit"⟩ none,
        .msg ⟨"GET", "/manifest"⟩ none]).1.length = 2 := by
  refine ⟨rfl, by decide, rfl, rfl⟩

/-- Claim C5 (amended): an unknown path yields status 400 with an empty
body, and every request whose method is not GET — POST /quit included —
yields status 405; there is no quit route, and the session loop never
terminates because of a request: after serving any request whose response
flush succeeds it continues with the remaining input, stopping only at
end-of-stream or on a transport error. -/
theorem http_dispatch_behavior (E : Env S D) [DecidableEq D] (req : HttpRequest)
    (evs : List EventA) :
    (req.method ≠ "GET" →
      serveHTTP E req = [.setHeader "Content-Length" "0", .writeHeader 405]) ∧
    (req.method = "GET" → strStarts req.path "/" = true → req.path ≠ "/manifest" →
      strStarts req.path "/blobs/" = false →
      serveHTTP E req = [.setHeader "Content-Length" "0", .writeHeader 400]) ∧
    runA E (.msg req none :: evs) =
      (serveHTTP E req :: (runA E evs).1, (runA E evs).2) := by
  refine ⟨?_, ?_, ?_⟩
  · intro h
    simp [serveHTTP, h]
  · intro h1 h2 h3 h4
    have h0 : req.path ≠ "" := by
      intro hh
      rw [hh] at h2
      exact absurd h2 (by decide)
    simp [serveHTTP, h1, h2, h3, h4, h0]
  · simp [runA]

/-- Witness for the amended C5: POST /quit gets the 405 response, an
unknown GET path gets the 400 empty-body response, and the loop serves a
request and continues. -/
theorem http_dispatch_behavior_witness :
    serveHTTP envN ⟨"POST", "/quit"⟩ =
      [.setHeader "Content-Length" "0", .writeHeader 405]
    ∧ serveHTTP envN ⟨"GET", "/nope"⟩ =
      [.setHeader "Content-Length" "0", .writeHeader 400]
    ∧ runA envN [EventA.msg ⟨"GET", "/nope"⟩ none] =
      (serveHTTP envN ⟨"GET", "/nope"⟩ :: (runA envN []).1, (runA envN []).2) :=
  ⟨(http_dispatch_behavior envN ⟨"POST", "/quit"⟩ []).1 (by decide),
   (http_dispatch_behavior envN ⟨"GET", "/nope"⟩ []).2.1 rfl (by decide)
     (by decide) (by decide),
   (http_dispatch_behavior envN ⟨"GET", "/nope"⟩ []).2.2⟩

/-- Claim C6 counterexample: a successful blob response whose backend
declared the unknown-size sentinel -1 still advertises a length — the
handler sets Content-Length to the literal "-1" unconditionally, where the
claim requires no length to be advertised. -/
theorem blob_unknown_size_advertised :
    implBlob envN "sha256:neg" =
      ([.setHeader "Content-Length" "-1",
        .setHeader "Content-Type" "application/octet-stream",
        .writeHeader 200, .write [5]], none) := by
  rfl

/-- Claim C6 (amended): every successful GET /blobs response advertises a
Content-Length header equal to the decimal rendering of the backend-declared
size, including the literal "-1" when the size is the unknown sentinel;
the header is never omitted. -/
theorem blob_content_length_always (E : Env S D) [DecidableEq D] (ds : String)
    (d : D) (chunks : List (List Byte)) (size : Int)
    (hdrain : E.drainErr = none)
    (hd : E.blob.parseDigest ds = .ok d)
    (hg : E.blob.getBlob d = .ok (chunks, size)) :
    (implBlob E ds).1.take 3 =
      [.setHeader "Content-Length" (toString size),
       .setHeader "Content-Type" "application/octet-stream",
       .writeHeader 200] := by
  simp [implBlob, hdrain, hd, hg]

/-- Witness for the amended C6: the unknown-size blob advertises "-1" and
a known-size blob advertises its size. -/
theorem blob_content_length_always_witness :
    (implBlob envN "sha256:neg").1.take 3 =
      [.setHeader "Content-Length" (toString (-1 : Int)),
       .setHeader "Content-Type" "application/octet-stream",
       .writeHeader 200]
    ∧ (implBlob envN "sha256:good").1.take 3 =
      [.setHeader "Content-Length" (toString (3 : Int)),
       .setHeader "Content-Type" "application/octet-stream",
       .writeHeader 200] :=
  ⟨blob_content_length_always envN "sha256:neg" 6 [[5]] (-1) rfl rfl rfl,
   blob_content_length_always envN "sha256:good" 60 [[7, 8], [9]] 3 rfl rfl rfl⟩

/-- Claim C8 counterexample: a transport-level read error that is not EOF
terminates the RPC session loop with a fatal error — the terminal state is
reached with no shutdown request and no end-of-stream in the input — and
the HTTP-variant loop likewise returns the read error. -/
theorem read_error_terminates_session :
    runB envN [.readErr false "connection reset"] initPState =
      ([], .readError "reading socket: connection reset", initPState)
    ∧ runA envN [.readErr false "connection reset"] =
      ([], .ioError "connection reset") :=
  ⟨rfl, rfl⟩

/-- Claim C8 (amended): per-request handler errors never terminate either
session loop — a message whose handling ends in continue runs the loop on
into the remaining input with its replies sent, and a served HTTP request
whose flush succeeds likewise continues; the RPC loop reaches its shutdown
end only through an explicit Shutdown envelope; and the fatal read-error
end arises only from a transport-level read failure in the input. So the
loop terminates only through explicit shutdown, end-of-stream, a transport
error, or the FinishPipe panic — never through a handler error, which is
converted to an error reply (RPC) or a 500 response (HTTP). -/
theorem session_termination_causes (E : Env S D) [DecidableEq D]
    (inp : Except String Request) (s : PState D) (evs : List EventB) :
    (∀ rs s2, handleMessage E inp s = (rs, .cont, s2) →
      runB E (.msg inp :: evs) s =
        (rs ++ (runB E evs s2).1, (runB E evs s2).2.1, (runB E evs s2).2.2)) ∧
    (∀ rs s2, handleMessage E inp s = (rs, .stop, s2) →
      (reqOf inp).method = "Shutdown") ∧
    (∀ m, (runB E evs s).2.1 = .readError m →
      ∃ m0, EventB.readErr false m0 ∈ evs ∧ m = "reading socket: " ++ m0) ∧
    (∀ (req : HttpRequest) (evsA : List EventA),
      runA E (.msg req none :: evsA) =
        (serveHTTP E req :: (runA E evsA).1, (runA E evsA).2)) := by
  refine ⟨?_, ?_, ?_, ?_⟩
  · intro rs s2 h
    simp [runB, h]
  · intro rs s2 h
    unfold handleMessage at h
    split_ifs at h with h1 h2 h3
    · simp at h
    · split at h <;> simp at h
    · exact h3
    · simp at h
  · intro m
    induction evs generalizing s with
    | nil =>
      intro h
      simp [runB] at h
    | cons e rest ih =>
      cases e with
      | msg inp2 =>
        intro h
        simp only [runB] at h
        rcases hm : handleMessage E inp2 s with ⟨rs2, ctl, s2⟩
        rw [hm] at h
        cases ctl with
        | cont =>
          simp only at h
          rcases ih s2 h with ⟨m0, hmem, hme⟩
          exact ⟨m0, List.mem_cons_of_mem _ hmem, hme⟩
        | stop => simp at h
        | crashed => simp at h
      | readErr eof m0 =>
        cases eof with
        | true =>
          intro h
          simp [runB] at h
        | false =>
          intro h
          simp only [runB] at h
          exact ⟨m0, List.mem_cons_self _ _, (SessEndB.readError.inj h).symm⟩
  · intro req evsA
    simp [runA]

/-- Witness for the amended C8: a handled unknown-method message continues
the RPC loop; a Shutdown envelope is the method behind a stop; a read
error in the input is what produced a read-error end; and the HTTP loop
continues past a served request. -/
theorem session_termination_causes_witness :
    runB envN [.msg (.ok ⟨"Nope", []⟩)] initPState =
      ([⟨false, .unit, 0, false, "unknown method: Nope"⟩] ++
        (runB envN [] initPState).1,
       (runB envN [] initPState).2.1, (runB envN [] initPState).2.2)
    ∧ (reqOf (.ok ⟨"Shutdown", (([] : List JValue))⟩)).method = "Shutdown"
    ∧ (∃ m0, EventB.readErr false m0 ∈ [EventB.readErr false "x"] ∧
        "reading socket: x" = "reading socket: " ++ m0)
    ∧ runA envN [EventA.msg ⟨"GET", "/manifest"⟩ none] =
      (serveHTTP envN ⟨"GET", "/manifest"⟩ :: (runA envN []).1, (runA envN []).2) :=
  ⟨(session_termination_causes envN (.ok ⟨"Nope", []⟩) initPState []).1
      [⟨false, .unit, 0, false, "unknown method: Nope"⟩] initPState rfl,
   (session_termination_causes envN (.ok ⟨"Shutdown", []⟩) initPState []).2.1
      [] initPState rfl,
   (session_termination_causes envN (.ok ⟨"Nope", []⟩) initPState
      [EventB.readErr false "x"]).2.2.1 "reading socket: x" rfl,
   (session_termination_causes envN (.ok ⟨"Nope", []⟩) initPState []).2.2.2
      ⟨"GET", "/manifest"⟩ []⟩

end CIProxy
